import Mathlib

/-
Verification of the config -> schema -> request -> result adapter in
src/simple_server.py (class SimpleAPIServer).  Python dictionaries are
modelled as association lists with in-place-update semantics, Python
string truthiness is modelled explicitly, and the fallible parts of a
tool call (str() of an argument value raising, the HTTP round trip)
are modelled with Except.
-/

/-- A JSON-like value as it occurs inside a parameter declaration of the
configuration (`parameters` maps names to dicts of such values). -/
inductive JVal where
  | s (v : String)
  | b (v : Bool)
  | i (v : Int)
deriving DecidableEq

/-- First-match lookup in an association list; models Python dict lookup
(dict keys are unique, so first match is the match). -/
def getKey {α : Type} : List (String × α) → String → Option α
  | [], _ => none
  | kv :: rest, k => if kv.1 = k then some kv.2 else getKey rest k

/-- Models Python dict assignment `d[k] = v`: an existing key keeps its
position and gets the new value, a new key is appended. -/
def setKey {α : Type} : List (String × α) → String → α → List (String × α)
  | [], k, v => [(k, v)]
  | kv :: rest, k, v => if kv.1 = k then (k, v) :: rest else kv :: setKey rest k v

/-- Python truthiness of a JSON-like value (`if param_config.get("required", False):`). -/
def truthy : JVal → Bool
  | .s v => v != ""
  | .b v => v
  | .i v => v != 0

/-- Python truthiness of an optional string (None and the empty string are falsy). -/
def truthyOpt : Option String → Bool
  | some s => s != ""
  | none => false

/-- Models the Python expression `a or b` on optional strings. -/
def pyOr (a b : Option String) : Option String :=
  if truthyOpt a then a else b

/-- One configured API endpoint (class APIEndpoint in src/simple_server.py). -/
structure APIEndpoint where
  name : String
  description : String
  method : String
  url : String
  headers : List (String × String)
  parameters : List (String × List (String × JVal))
  path_params : List String
  query_params : List String
  body_template : Option String
  auth_type : Option String
  auth_config : List (String × String)
deriving DecidableEq

/-- The server configuration (class ServerConfig in src/simple_server.py). -/
structure ServerConfig where
  name : String
  version : String
  base_url : Option String
  global_headers : List (String × String)
  endpoints : List APIEndpoint
deriving DecidableEq

/-- The environment variables consulted by `_prepare_auth_headers`
(API_TOKEN, API_USERNAME, API_PASSWORD, API_KEY). -/
structure Env where
  apiToken : Option String
  apiUsername : Option String
  apiPassword : Option String
  apiKey : Option String
deriving DecidableEq

/-- The `inputSchema` part of a generated tool: its `type` field is the
constant "object" and is elided. -/
structure ToolSchema where
  properties : List (String × List (String × JVal))
  required : List String
deriving DecidableEq

/-- A generated tool definition (mcp.types.Tool as used by `_build_tool_schema`). -/
structure Tool where
  name : String
  description : String
  inputSchema : ToolSchema
deriving DecidableEq

/-- The property dict assigned for a path parameter in the first pass of
`_build_tool_schema`. -/
def pathPropVal (p : String) : List (String × JVal) :=
  [("type", .s "string"), ("description", .s ("Path parameter: " ++ p))]

/-- One step of the path-parameter pass of `_build_tool_schema`. -/
def pathPassStep (acc : ToolSchema) (p : String) : ToolSchema :=
  { properties := setKey acc.properties p (pathPropVal p),
    required := acc.required ++ [p] }

/-- The property dict assigned for a query parameter in the second pass of
`_build_tool_schema` (type and description from its declaration, with defaults). -/
def queryPropVal (e : APIEndpoint) (p : String) : List (String × JVal) :=
  let pc := (getKey e.parameters p).getD []
  [("type", (getKey pc "type").getD (.s "string")),
   ("description", (getKey pc "description").getD (.s ("Query parameter: " ++ p)))]

/-- Whether a parameter declaration dict has a truthy `required` field
(`param_config.get("required", False)`). -/
def declRequired (pc : List (String × JVal)) : Bool :=
  truthy ((getKey pc "required").getD (.b false))

/-- One step of the query-parameter pass of `_build_tool_schema`. -/
def queryPassStep (e : APIEndpoint) (acc : ToolSchema) (p : String) : ToolSchema :=
  { properties := setKey acc.properties p (queryPropVal e p),
    required :=
      if declRequired ((getKey e.parameters p).getD []) then acc.required ++ [p]
      else acc.required }

/-- One step of the final pass of `_build_tool_schema` over the remaining
entries of `parameters`; only this pass skips names already present. -/
def extraPassStep (acc : ToolSchema) (kv : String × List (String × JVal)) : ToolSchema :=
  if (getKey acc.properties kv.1).isSome then acc
  else
    { properties := setKey acc.properties kv.1 kv.2,
      required := if declRequired kv.2 then acc.required ++ [kv.1] else acc.required }

/-- State of the schema after the path-parameter pass of `_build_tool_schema`. -/
def schemaPass1 (e : APIEndpoint) : ToolSchema :=
  e.path_params.foldl pathPassStep ⟨[], []⟩

/-- State of the schema after the query-parameter pass of `_build_tool_schema`. -/
def schemaPass2 (e : APIEndpoint) : ToolSchema :=
  e.query_params.foldl (queryPassStep e) (schemaPass1 e)

/-- `_build_tool_schema` from src/simple_server.py: three passes over the
endpoint (path params, query params, remaining `parameters` entries). -/
def buildToolSchema (e : APIEndpoint) : Tool :=
  ⟨e.name, e.description, e.parameters.foldl extraPassStep (schemaPass2 e)⟩

/-- Base64 alphabet, used by the model of `base64.b64encode`. -/
def b64chars : List Char :=
  "ABCDEFGHIJKLMNOPQRSTUVWXYZabcdefghijklmnopqrstuvwxyz0123456789+/".data

/-- Base64 encoding of a byte list (models `base64.b64encode`). -/
def b64encodeBytes : List Nat → String
  | [] => ""
  | [a] =>
    String.mk [b64chars.getD (a / 4) 'A', b64chars.getD (a % 4 * 16) 'A'] ++ "=="
  | [a, b] =>
    String.mk [b64chars.getD (a / 4) 'A', b64chars.getD (a % 4 * 16 + b / 16) 'A',
               b64chars.getD (b % 16 * 4) 'A'] ++ "="
  | a :: b :: c :: rest =>
    String.mk [b64chars.getD (a / 4) 'A', b64chars.getD (a % 4 * 16 + b / 16) 'A',
               b64chars.getD (b % 16 * 4 + c / 64) 'A', b64chars.getD (c % 64) 'A']
      ++ b64encodeBytes rest

/-- Models `base64.b64encode(s.encode()).decode()` for ASCII credentials
(each character is one byte). -/
def b64encode (s : String) : String :=
  b64encodeBytes (s.data.map Char.toNat)

/-- `_prepare_auth_headers` from src/simple_server.py.  Python truthiness is
preserved: `cfg_value or env_value` skips falsy (empty) strings, and the
`if token:` guards skip a falsy resolved credential. -/
def prepareAuthHeaders (e : APIEndpoint) (env : Env) : List (String × String) :=
  if e.auth_type = some "bearer" then
    match pyOr (getKey e.auth_config "token") env.apiToken with
    | some t => if t != "" then [("Authorization", "Bearer " ++ t)] else []
    | none => []
  else if e.auth_type = some "basic" then
    match pyOr (getKey e.auth_config "username") env.apiUsername,
          pyOr (getKey e.auth_config "password") env.apiPassword with
    | some u, some p =>
      if u != "" && p != "" then
        [("Authorization", "Basic " ++ b64encode (u ++ ":" ++ p))]
      else []
    | _, _ => []
  else if e.auth_type = some "api_key" then
    match pyOr (getKey e.auth_config "key") env.apiKey with
    | some k =>
      if k != "" then [((getKey e.auth_config "header").getD "X-API-Key", k)] else []
    | none => []
  else []

/-- A Python value supplied as a call argument.  `bad` models an object
whose `str()` raises (with the given message); every other constructor
converts with `str()` the way Python does. -/
inductive PyValue where
  | str (v : String)
  | int (v : Int)
  | bool (v : Bool)
  | bad (msg : String)
deriving DecidableEq

/-- Models Python `str(value)` on an argument value; `.bad` raises. -/
def strOfV : PyValue → Except String String
  | .str v => .ok v
  | .int v => .ok (toString v)
  | .bool v => .ok (if v then "True" else "False")
  | .bad m => .error m

/-- Worker for `pyReplace`; the fuel is an upper bound on the number of
steps (one step consumes at least one input character, so
`input.length + 1` always suffices). -/
def replaceAuxF : Nat → List Char → List Char → List Char → List Char
  | 0, _, _, s => s
  | _ + 1, _, _, [] => []
  | fuel + 1, pat, rep, c :: rest =>
    if pat ≠ [] ∧ pat.isPrefixOf (c :: rest) then
      rep ++ replaceAuxF fuel pat rep (List.drop pat.length (c :: rest))
    else
      c :: replaceAuxF fuel pat rep rest

/-- Models Python `s.replace(pat, rep)` for a non-empty pattern:
non-overlapping occurrences are replaced left to right and replacement
text is not rescanned. -/
def pyReplace (s pat rep : String) : String :=
  ⟨replaceAuxF (s.data.length + 1) pat.data rep.data s.data⟩

/-- The substitution loop of `_build_request_body`: for each argument in
order, `body = body.replace("{" + key + "}", str(value))`; a raising
`str()` aborts with that exception. -/
def substTemplateE : String → List (String × PyValue) → Except String String
  | t, [] => .ok t
  | t, (k, v) :: rest =>
    match strOfV v with
    | .error m => .error m
    | .ok sv => substTemplateE (pyReplace t ("\x7b" ++ k ++ "\x7d") sv) rest

/-- The same substitution loop restricted to string-valued arguments
(where `str()` cannot raise). -/
def substTemplate : String → List (String × String) → String
  | t, [] => t
  | t, (k, v) :: rest => substTemplate (pyReplace t ("\x7b" ++ k ++ "\x7d") v) rest

/-- `_build_request_body` from src/simple_server.py: `if not
endpoint.body_template: return None` (Python truthiness, so the empty
template also yields no body); a substitution failure is caught, logged
and degraded to no body. -/
def buildRequestBodyE (e : APIEndpoint) (args : List (String × PyValue)) : Option String :=
  match e.body_template with
  | none => none
  | some t =>
    if t = "" then none
    else
      match substTemplateE t args with
      | .ok b => some b
      | .error _ => none

/-- Scheme-and-host part of a URL, used by the `urljoin` model. -/
def hostRoot (base : String) : String :=
  let sr :=
    if base.startsWith "http://" then ("http://", base.drop 7)
    else if base.startsWith "https://" then ("https://", base.drop 8)
    else ("", base)
  sr.1 ++ String.mk (sr.2.data.takeWhile (fun c => c != '/'))

/-- Base URL truncated after its last path slash, used by the `urljoin` model. -/
def dropLastSegment (base : String) : String :=
  let hr := hostRoot base
  let path := base.drop hr.length
  let keep := path.data.reverse.dropWhile (fun c => c != '/')
  if keep.isEmpty then hr ++ "/" else hr ++ String.mk keep.reverse

/-- Models `urllib.parse.urljoin(base, rel)` for the common cases exercised
here: an absolute `rel` wins, a root-relative `rel` is joined onto the
scheme and host of `base`, any other `rel` replaces the last path segment
of `base`. -/
def urljoinModel (base rel : String) : String :=
  if rel = "" then base
  else if rel.startsWith "http://" || rel.startsWith "https://" then rel
  else if rel.startsWith "/" then hostRoot base ++ rel
  else dropLastSegment base ++ rel

/-- The base-URL step of `_build_url`: `if self.config.base_url and not
url.startswith(('http://', 'https://')):` (Python truthiness on `base_url`). -/
def resolveBase (cfg : ServerConfig) (url : String) : String :=
  if truthyOpt cfg.base_url && !(url.startsWith "http://" || url.startsWith "https://") then
    urljoinModel (cfg.base_url.getD "") url
  else url

/-- The path-parameter loop of `_build_url`: for each name in
`path_params` present in the arguments, replace `{name}` with
`str(arguments[name])`; a raising `str()` aborts with that exception. -/
def substPathParamsE : List String → List (String × PyValue) → String → Except String String
  | [], _, u => .ok u
  | p :: rest, args, u =>
    match getKey args p with
    | some v =>
      match strOfV v with
      | .error m => .error m
      | .ok sv => substPathParamsE rest args (pyReplace u ("\x7b" ++ p ++ "\x7d") sv)
    | none => substPathParamsE rest args u

/-- The same loop restricted to string-valued arguments. -/
def substPathParams : List String → List (String × String) → String → String
  | [], _, u => u
  | p :: rest, args, u =>
    match getKey args p with
    | some v => substPathParams rest args (pyReplace u ("\x7b" ++ p ++ "\x7d") v)
    | none => substPathParams rest args u

/-- `_build_url` from src/simple_server.py. -/
def buildUrlE (cfg : ServerConfig) (e : APIEndpoint) (args : List (String × PyValue)) :
    Except String String :=
  substPathParamsE e.path_params args (resolveBase cfg e.url)

/-- Worker for `_build_query_params`. -/
def qpAux : List String → List (String × PyValue) → List (String × String) →
    Except String (List (String × String))
  | [], _, acc => .ok acc
  | p :: rest, args, acc =>
    match getKey args p with
    | some v =>
      match strOfV v with
      | .error m => .error m
      | .ok sv => qpAux rest args (setKey acc p sv)
    | none => qpAux rest args acc

/-- `_build_query_params` from src/simple_server.py: every declared query
parameter present in the arguments is added as its string form; absent
ones are omitted. -/
def buildQueryParamsE (e : APIEndpoint) (args : List (String × PyValue)) :
    Except String (List (String × String)) :=
  qpAux e.query_params args []

/-- Models the Python dict merge `{**a, **b}` / `a.update(b)`: later
sources overwrite earlier ones in place, new keys are appended. -/
def mergeH (a b : List (String × String)) : List (String × String) :=
  b.foldl (fun acc kv => setKey acc kv.1 kv.2) a

/-- The endpoint-lookup loop of `_handle_call_tool`: linear scan, first
name match wins. -/
def findEndpoint : List APIEndpoint → String → Option APIEndpoint
  | [], _ => none
  | e :: rest, n => if e.name = n then some e else findEndpoint rest n

/-- A parsed JSON document, for the model of Python's `json` module. -/
inductive Json where
  | nul
  | tru
  | fls
  | num (n : Int)
  | str (s : String)
  | arr (xs : List Json)
  | obj (kvs : List (String × Json))

/-- JSON whitespace. -/
def jsonWs (c : Char) : Bool :=
  c == ' ' || c == '\n' || c == '\t' || c == '\r'

/-- Skip leading JSON whitespace. -/
def skipWs : List Char → List Char
  | [] => []
  | c :: rest => if jsonWs c then skipWs rest else c :: rest

/-- Decode one JSON string escape character. -/
def escOf (e : Char) : Option Char :=
  if e == '"' then some '"'
  else if e == '\\' then some '\\'
  else if e == '/' then some '/'
  else if e == 'n' then some '\n'
  else if e == 't' then some '\t'
  else if e == 'r' then some '\r'
  else if e == 'b' then some (Char.ofNat 8)
  else if e == 'f' then some (Char.ofNat 12)
  else none

/-- Parse the rest of a JSON string literal (the opening quote already
consumed); fueled so that it is structurally recursive. -/
def parseStrAux : Nat → List Char → List Char → Option (String × List Char)
  | 0, _, _ => none
  | _ + 1, _, [] => none
  | fuel + 1, acc, c :: rest =>
    if c == '"' then some (String.mk acc.reverse, rest)
    else if c == '\\' then
      match rest with
      | [] => none
      | e :: rest2 =>
        match escOf e with
        | some ec => parseStrAux fuel (ec :: acc) rest2
        | none => none
    else parseStrAux fuel (c :: acc) rest

/-- Decimal value of a digit list. -/
def digitsVal (ds : List Char) : Nat :=
  ds.foldl (fun a c => a * 10 + (c.toNat - 48)) 0

/-- Parse a JSON integer (the model covers integers only; a fractional or
exponent part makes the parse fail, so such bodies fall back to raw text). -/
def parseNum (input : List Char) : Option (Json × List Char) :=
  let nr : Bool × List Char :=
    match input with
    | '-' :: r => (true, r)
    | r => (false, r)
  let ds := nr.2.takeWhile Char.isDigit
  let rest2 := nr.2.dropWhile Char.isDigit
  if ds.isEmpty then none
  else
    match rest2 with
    | '.' :: _ => none
    | 'e' :: _ => none
    | 'E' :: _ => none
    | _ =>
      some (.num (if nr.1 then -(digitsVal ds : Int) else (digitsVal ds : Int)), rest2)

/-- Drop an expected literal from the input. -/
def stripLit (lit input : List Char) : Option (List Char) :=
  if lit.isPrefixOf input then some (input.drop lit.length) else none

/-- Mode of the single fueled JSON parsing function: a value, the members
of an object, or the items of an array. -/
inductive PMode where
  | val
  | members (acc : List (String × Json))
  | items (acc : List Json)

/-- Recursive-descent JSON parser (models the subset of `json.loads`
needed here: null, booleans, integers, strings with simple escapes,
arrays and objects).  Fueled on the input length so that it is
structurally recursive and kernel-reducible. -/
def parseJ : Nat → PMode → List Char → Option (Json × List Char)
  | 0, _, _ => none
  | fuel + 1, .val, input =>
    match skipWs input with
    | [] => none
    | c :: rest =>
      if c == '"' then
        match parseStrAux (rest.length + 1) [] rest with
        | some (s, r) => some (.str s, r)
        | none => none
      else if c == Char.ofNat 123 then
        match skipWs rest with
        | c2 :: r2 =>
          if c2 == Char.ofNat 125 then some (.obj [], r2)
          else parseJ fuel (.members []) (skipWs rest)
        | [] => none
      else if c == '[' then
        match skipWs rest with
        | c2 :: r2 =>
          if c2 == ']' then some (.arr [], r2)
          else parseJ fuel (.items []) (skipWs rest)
        | [] => none
      else if c == 't' then
        match stripLit "true".data (c :: rest) with
        | some r => some (.tru, r)
        | none => none
      else if c == 'f' then
        match stripLit "false".data (c :: rest) with
        | some r => some (.fls, r)
        | none => none
      else if c == 'n' then
        match stripLit "null".data (c :: rest) with
        | some r => some (.nul, r)
        | none => none
      else parseNum (c :: rest)
  | fuel + 1, .members acc, input =>
    match skipWs input with
    | c :: rest =>
      if c == '"' then
        match parseStrAux (rest.length + 1) [] rest with
        | some (key, r1) =>
          match skipWs r1 with
          | ':' :: r3 =>
            match parseJ fuel .val r3 with
            | some (v, r4) =>
              match skipWs r4 with
              | ',' :: r6 => parseJ fuel (.members (acc ++ [(key, v)])) r6
              | c2 :: r6 =>
                if c2 == Char.ofNat 125 then some (.obj (acc ++ [(key, v)]), r6) else none
              | [] => none
            | none => none
          | _ => none
        | none => none
      else none
    | [] => none
  | fuel + 1, .items acc, input =>
    match parseJ fuel .val input with
    | some (v, r1) =>
      match skipWs r1 with
      | ',' :: r2 => parseJ fuel (.items (acc ++ [v])) r2
      | ']' :: r2 => some (.arr (acc ++ [v]), r2)
      | _ => none
    | none => none

/-- Models `json.loads(s)` (on the subset above): the whole input must be
consumed up to trailing whitespace. -/
def parseJson (s : String) : Option Json :=
  match parseJ (s.data.length + 1) .val s.data with
  | some (j, rest) => if (skipWs rest).isEmpty then some j else none
  | none => none

/-- Escape one character of a JSON string for output. -/
def escJsonChar (c : Char) : String :=
  if c == '"' then "\\\""
  else if c == '\\' then "\\\\"
  else if c == '\n' then "\\n"
  else if c == '\r' then "\\r"
  else if c == '\t' then "\\t"
  else String.singleton c

/-- A JSON string literal for output (ASCII contents; the model elides
the `\uXXXX` escaping `json.dumps` applies to other characters). -/
def quoteJson (s : String) : String :=
  "\"" ++ s.data.foldl (fun acc c => acc ++ escJsonChar c) "" ++ "\""

/-- Indentation of `2 * n` spaces. -/
def indentStr (n : Nat) : String :=
  String.mk (List.replicate (2 * n) ' ')

/-- Models `json.dumps(v, indent=2)`.  Fueled on the nesting depth so
that it is structurally recursive and kernel-reducible. -/
def dumpsF : Nat → Json → Nat → String
  | 0, _, _ => ""
  | fuel + 1, j, lvl =>
    match j with
    | .nul => "null"
    | .tru => "true"
    | .fls => "false"
    | .num n => toString n
    | .str s => quoteJson s
    | .arr [] => "[]"
    | .arr xs =>
      "[\n" ++
        String.intercalate ",\n"
          (xs.map (fun x => indentStr (lvl + 1) ++ dumpsF fuel x (lvl + 1))) ++
        "\n" ++ indentStr lvl ++ "]"
    | .obj [] => "\x7b\x7d"
    | .obj kvs =>
      "\x7b\n" ++
        String.intercalate ",\n"
          (kvs.map (fun kv =>
            indentStr (lvl + 1) ++ quoteJson kv.1 ++ ": " ++ dumpsF fuel kv.2 (lvl + 1))) ++
        "\n" ++ indentStr lvl ++ "\x7d"

/-- The response-formatting step of `_handle_call_tool`: try
`json.loads`, pretty-print with `json.dumps(indent=2)` on success, fall
back to the raw text on a decode error. -/
def formatResponse (s : String) : String :=
  match parseJson s with
  | some j => dumpsF (s.data.length + 1) j 0
  | none => s

/-- A completed HTTP response as observed by `_handle_call_tool`
(status code and body text). -/
structure HttpResp where
  status : Nat
  body : String
deriving DecidableEq

/-- One text content block of a tool result; the `type` field is the
constant "text" and is elided. -/
structure TextContent where
  text : String
deriving DecidableEq

/-- The fully resolved HTTP request handed to the shared client. -/
structure ResolvedRequest where
  method : String
  url : String
  headers : List (String × String)
  query : List (String × String)
  body : Option String
deriving DecidableEq

/-- The request-preparation phase of `_handle_call_tool`: URL, merged
headers (global, then endpoint, then auth), query parameters, body.  Any
exception raised while building the URL or the query parameters
propagates; a body-substitution failure is absorbed by
`_build_request_body` itself. -/
def mkRequest (cfg : ServerConfig) (env : Env) (e : APIEndpoint)
    (args : List (String × PyValue)) : Except String ResolvedRequest :=
  match buildUrlE cfg e args with
  | .error m => .error m
  | .ok url =>
    match buildQueryParamsE e args with
    | .error m => .error m
    | .ok qp =>
      .ok ⟨e.method, url,
           mergeH (mergeH cfg.global_headers e.headers) (prepareAuthHeaders e env),
           qp, buildRequestBodyE e args⟩

/-- The text of the catch-all failure result of `_handle_call_tool`. -/
def errText (name m : String) : String :=
  "Error: Failed to call tool \x27" ++ name ++ "\x27: " ++ m

/-- The response-classification phase of `_handle_call_tool`: a transport
fault is converted to the catch-all failure text; a completed response is
classified by status code (>= 400 failure-shaped, otherwise success-shaped). -/
def respond (name : String) (outcome : Except String HttpResp) : List TextContent :=
  match outcome with
  | .error m => [⟨errText name m⟩]
  | .ok resp =>
    if 400 ≤ resp.status then
      [⟨"Error: HTTP " ++ toString resp.status ++ ": " ++ formatResponse resp.body⟩]
    else
      [⟨"API Response (Status: " ++ toString resp.status ++ "):\n\n" ++
        formatResponse resp.body⟩]

/-- `_handle_call_tool` from src/simple_server.py.  The HTTP round trip is
modelled by `exec`; every exception raised inside the handler (request
preparation or transport) is caught by its outer `try` and converted to
the catch-all failure text. -/
def handleCallTool (cfg : ServerConfig) (env : Env)
    (exec : ResolvedRequest → Except String HttpResp) (name : String)
    (args : List (String × PyValue)) : List TextContent :=
  match findEndpoint cfg.endpoints name with
  | none => [⟨"Tool \x27" ++ name ++ "\x27 not found"⟩]
  | some e =>
    match mkRequest cfg env e args with
    | .error m => [⟨errText name m⟩]
    | .ok req => respond name (exec req)

/-- Substring relation on strings (via their character lists). -/
def strContains (hay needle : String) : Prop :=
  needle.data <:+: hay.data

instance (hay needle : String) : Decidable (strContains hay needle) :=
  inferInstanceAs (Decidable (needle.data <:+: hay.data))

/-- Lift a call-argument list of plain strings to `PyValue` arguments. -/
def liftArgs (args : List (String × String)) : List (String × PyValue) :=
  args.map (fun kv => (kv.1, PyValue.str kv.2))

/-- An endpoint whose name is both a path and a query parameter, with no
declaration in `parameters`. -/
def epPathAndQuery : APIEndpoint :=
  { name := "t", description := "d", method := "GET", url := "/x/\x7bp\x7d",
    headers := [], parameters := [], path_params := ["p"], query_params := ["p"],
    body_template := none, auth_type := none, auth_config := [] }

/-- An endpoint whose name is both a path and a query parameter and whose
declaration in `parameters` gives it type "integer". -/
def epPathQueryInt : APIEndpoint :=
  { name := "t", description := "d", method := "GET", url := "/x/\x7bp\x7d",
    headers := [], parameters := [("p", [("type", JVal.s "integer")])],
    path_params := ["p"], query_params := ["p"],
    body_template := none, auth_type := none, auth_config := [] }

/-- An endpoint with a single path parameter and nothing else. -/
def epPathOnly : APIEndpoint :=
  { name := "t", description := "d", method := "GET", url := "/x/\x7bid\x7d",
    headers := [], parameters := [], path_params := ["id"], query_params := [],
    body_template := none, auth_type := none, auth_config := [] }

/-- A bearer endpoint whose configured token is the empty string. -/
def epBearerEmptyToken : APIEndpoint :=
  { name := "t", description := "d", method := "GET", url := "http://h/x",
    headers := [], parameters := [], path_params := [], query_params := [],
    body_template := none, auth_type := some "bearer", auth_config := [("token", "")] }

/-- A bearer endpoint whose configured token is "abc". -/
def epBearerAbc : APIEndpoint :=
  { name := "t", description := "d", method := "GET", url := "http://h/x",
    headers := [], parameters := [], path_params := [], query_params := [],
    body_template := none, auth_type := some "bearer", auth_config := [("token", "abc")] }

/-- An endpoint with the unrecognized auth type "Bearer" (capitalized). -/
def epAuthCapitalBearer : APIEndpoint :=
  { name := "t", description := "d", method := "GET", url := "http://h/x",
    headers := [], parameters := [], path_params := [], query_params := [],
    body_template := none, auth_type := some "Bearer", auth_config := [("token", "abc")] }

/-- An environment with none of the auth fallback variables set. -/
def envEmpty : Env := ⟨none, none, none, none⟩

/-- A plain GET endpoint named "get_item" with an absolute URL. -/
def epGetItem : APIEndpoint :=
  { name := "get_item", description := "d", method := "GET", url := "http://h/item",
    headers := [], parameters := [], path_params := [], query_params := [],
    body_template := none, auth_type := none, auth_config := [] }

/-- A configuration holding only `epGetItem`. -/
def cfgGetItem : ServerConfig :=
  { name := "s", version := "1", base_url := none, global_headers := [],
    endpoints := [epGetItem] }

/-- An endpoint with the body template from the spec example. -/
def epBodyName : APIEndpoint :=
  { name := "t", description := "d", method := "POST", url := "http://h/x",
    headers := [], parameters := [], path_params := [], query_params := [],
    body_template := some "\x7b\"name\":\"\x7bvalue\x7d\"\x7d",
    auth_type := none, auth_config := [] }

/-- A POST endpoint whose body template mentions the argument "a". -/
def epBodyA : APIEndpoint :=
  { name := "t", description := "d", method := "POST", url := "http://h/x",
    headers := [], parameters := [], path_params := [], query_params := [],
    body_template := some "\x7ba\x7d", auth_type := none, auth_config := [] }

/-- A configuration holding only `epBodyA`. -/
def cfgBodyA : ServerConfig :=
  { name := "s", version := "1", base_url := none, global_headers := [],
    endpoints := [epBodyA] }

/-- An endpoint with one path parameter in a relative URL. -/
def epRelPath : APIEndpoint :=
  { name := "t", description := "d", method := "GET", url := "/a/\x7bid\x7d",
    headers := [], parameters := [], path_params := ["id"], query_params := [],
    body_template := none, auth_type := none, auth_config := [] }

/-- A configuration with no base URL, holding only `epRelPath`. -/
def cfgRelPath : ServerConfig :=
  { name := "s", version := "1", base_url := none, global_headers := [],
    endpoints := [epRelPath] }

theorem getKey_setKey {α : Type} (d : List (String × α)) (k k' : String) (v : α) :
    getKey (setKey d k v) k' = if k' = k then some v else getKey d k' := by
  induction d with
  | nil =>
    by_cases h : k' = k
    · simp [setKey, getKey, h]
    · simp [setKey, getKey, h, Ne.symm h]
  | cons kv rest ih =>
    by_cases h : kv.1 = k
    · by_cases h2 : k' = k
      · simp [setKey, getKey, h, h2]
      · simp [setKey, getKey, h, h2, Ne.symm h2]
    · by_cases h2 : k' = k
      · subst h2
        simp [setKey, getKey, h, ih]
      · by_cases h3 : kv.1 = k'
        · simp [setKey, getKey, h, h2, h3, ih]
        · simp [setKey, getKey, h, h2, h3, ih]

theorem getKey_mem {α : Type} :
    ∀ (d : List (String × α)) (k : String) (v : α), getKey d k = some v → (k, v) ∈ d := by
  intro d
  induction d with
  | nil => intro k v h; simp [getKey] at h
  | cons kv rest ih =>
    intro k v h
    simp only [getKey] at h
    by_cases he : kv.1 = k
    · rw [if_pos he] at h
      have hv : kv.2 = v := Option.some_inj.mp h
      rw [← he, ← hv]
      simp
    · rw [if_neg he] at h
      exact List.mem_cons_of_mem _ (ih k v h)

theorem getKey_foldl_set {α : Type} (g : String → α) (l : List String) :
    ∀ (ps : List (String × α)) (k : String),
      getKey (l.foldl (fun ps p => setKey ps p (g p)) ps) k
        = if k ∈ l then some (g k) else getKey ps k := by
  induction l with
  | nil => intro ps k; simp
  | cons p rest ih =>
    intro ps k
    simp only [List.foldl_cons]
    rw [ih]
    by_cases h : k ∈ rest
    · simp [h]
    · by_cases h2 : k = p
      · simp [h, h2, getKey_setKey]
      · simp [h, h2, getKey_setKey]

theorem foldl_pathPass_props (l : List String) :
    ∀ acc : ToolSchema,
      (l.foldl pathPassStep acc).properties
        = l.foldl (fun ps p => setKey ps p (pathPropVal p)) acc.properties := by
  induction l with
  | nil => intro acc; rfl
  | cons p rest ih =>
    intro acc
    simp only [List.foldl_cons]
    rw [ih]
    rfl

theorem foldl_queryPass_props (e : APIEndpoint) (l : List String) :
    ∀ acc : ToolSchema,
      (l.foldl (queryPassStep e) acc).properties
        = l.foldl (fun ps p => setKey ps p (queryPropVal e p)) acc.properties := by
  induction l with
  | nil => intro acc; rfl
  | cons p rest ih =>
    intro acc
    simp only [List.foldl_cons]
    rw [ih]
    rfl

theorem foldl_pathPass_req (l : List String) :
    ∀ acc : ToolSchema, (l.foldl pathPassStep acc).required = acc.required ++ l := by
  induction l with
  | nil => intro acc; simp
  | cons p rest ih =>
    intro acc
    simp only [List.foldl_cons]
    rw [ih]
    simp [pathPassStep]

theorem foldl_queryPass_req (e : APIEndpoint) (l : List String) :
    ∀ acc : ToolSchema,
      (l.foldl (queryPassStep e) acc).required
        = acc.required ++ l.filter (fun p => declRequired ((getKey e.parameters p).getD [])) := by
  induction l with
  | nil => intro acc; simp
  | cons p rest ih =>
    intro acc
    simp only [List.foldl_cons]
    rw [ih]
    by_cases h : declRequired ((getKey e.parameters p).getD []) = true
    · simp [queryPassStep, h, List.filter_cons]
    · simp [queryPassStep, h, List.filter_cons]

theorem foldl_extraPass_props_preserved
    (params : List (String × List (String × JVal))) :
    ∀ (acc : ToolSchema) (k : String) (v : List (String × JVal)),
      getKey acc.properties k = some v →
      getKey (params.foldl extraPassStep acc).properties k = some v := by
  induction params with
  | nil => intro acc k v h; exact h
  | cons kv rest ih =>
    intro acc k v h
    simp only [List.foldl_cons]
    apply ih
    unfold extraPassStep
    by_cases hm : (getKey acc.properties kv.1).isSome = true
    · simp only [hm, if_true]
      exact h
    · simp only [hm, if_false, Bool.false_eq_true]
      have hne : k ≠ kv.1 := by
        intro he
        rw [← he, h] at hm
        simp at hm
      rw [getKey_setKey]
      simp [hne]
      exact h

theorem foldl_extraPass_req_mono (params : List (String × List (String × JVal))) :
    ∀ (acc : ToolSchema) (k : String),
      k ∈ acc.required → k ∈ (params.foldl extraPassStep acc).required := by
  induction params with
  | nil => intro acc k h; exact h
  | cons kv rest ih =>
    intro acc k h
    simp only [List.foldl_cons]
    apply ih
    unfold extraPassStep
    by_cases h1 : (getKey acc.properties kv.1).isSome = true
    · simp only [h1, if_true]
      exact h
    · simp only [h1, if_false, Bool.false_eq_true]
      by_cases h2 : declRequired kv.2 = true
      · simp only [h2, if_true]
        exact List.mem_append_left _ h
      · simp only [h2, if_false, Bool.false_eq_true]
        exact h

theorem foldl_extraPass_req_from (params : List (String × List (String × JVal))) :
    ∀ (acc : ToolSchema) (k : String),
      k ∈ (params.foldl extraPassStep acc).required →
      k ∈ acc.required ∨ ∃ pc, (k, pc) ∈ params ∧ declRequired pc := by
  induction params with
  | nil => intro acc k h; exact Or.inl h
  | cons kv rest ih =>
    intro acc k h
    simp only [List.foldl_cons] at h
    rcases ih _ k h with h1 | ⟨pc, hmem, hreq⟩
    · unfold extraPassStep at h1
      by_cases c1 : (getKey acc.properties kv.1).isSome = true
      · simp only [c1, if_true] at h1
        exact Or.inl h1
      · simp only [c1, if_false, Bool.false_eq_true] at h1
        by_cases c2 : declRequired kv.2 = true
        · simp only [c2, if_true] at h1
          rcases List.mem_append.mp h1 with ha | hb
          · exact Or.inl ha
          · right
            refine ⟨kv.2, ?_, c2⟩
            simp only [List.mem_singleton] at hb
            rw [hb]
            simp
        · simp only [c2, if_false, Bool.false_eq_true] at h1
          exact Or.inl h1
    · exact Or.inr ⟨pc, List.mem_cons_of_mem _ hmem, hreq⟩


/-- C1 counterexample: on an endpoint whose name "p" is both a path and a
query parameter, the path pass assigns the path-parameter property but the
final schema holds the query-parameter property — the query pass
overwrote an entry an earlier pass had already set, so the claim that no
later pass overwrites an earlier assignment is false. -/
theorem c1_counterexample :
    getKey (schemaPass1 epPathAndQuery).properties "p" = some (pathPropVal "p") ∧
    getKey (buildToolSchema epPathAndQuery).inputSchema.properties "p"
      = some (queryPropVal epPathAndQuery "p") ∧
    queryPropVal epPathAndQuery "p" ≠ pathPropVal "p" := by
  decide

/-- C1 (amended): schema properties are assigned in three passes (path
parameters, then declared query parameters, then the remaining entries of
`parameters`).  The path pass assigns every path parameter its
path-property; the query pass assigns every declared query parameter its
query-property, overwriting the path pass on a name listed in both; only
the final pass never overwrites a property an earlier pass already set. -/
theorem c1_pass_precedence :
    (∀ (e : APIEndpoint) (p : String), p ∈ e.path_params →
      getKey (schemaPass1 e).properties p = some (pathPropVal p)) ∧
    (∀ (e : APIEndpoint) (p : String), p ∈ e.query_params →
      getKey (schemaPass2 e).properties p = some (queryPropVal e p)) ∧
    (∀ (e : APIEndpoint) (k : String) (v : List (String × JVal)),
      getKey (schemaPass2 e).properties k = some v →
      getKey (buildToolSchema e).inputSchema.properties k = some v) := by
  refine ⟨?_, ?_, ?_⟩
  · intro e p hp
    unfold schemaPass1
    rw [foldl_pathPass_props, getKey_foldl_set]
    simp [hp]
  · intro e p hp
    unfold schemaPass2
    rw [foldl_queryPass_props, getKey_foldl_set]
    simp [hp]
  · intro e k v h
    unfold buildToolSchema
    exact foldl_extraPass_props_preserved _ _ _ _ h

/-- C1 witness: the amended theorem applied to a concrete endpoint with
one path parameter. -/
theorem c1_pass_precedence_witness :
    getKey (schemaPass1 epPathOnly).properties "id" = some (pathPropVal "id") ∧
    getKey (buildToolSchema epPathOnly).inputSchema.properties "id"
      = some (pathPropVal "id") := by
  refine ⟨c1_pass_precedence.1 epPathOnly "id" (by decide), ?_⟩
  exact c1_pass_precedence.2.2 epPathOnly "id" (pathPropVal "id") (by decide)

/-- C2 counterexample: on an endpoint whose path parameter "p" is also a
declared query parameter of type "integer", the generated schema gives
"p" the type "integer", not "string", so the claim that every path
parameter appears with type exactly "string" is false. -/
theorem c2_counterexample :
    "p" ∈ epPathQueryInt.path_params ∧
    getKey ((getKey (buildToolSchema epPathQueryInt).inputSchema.properties "p").getD [])
        "type" = some (JVal.s "integer") ∧
    JVal.s "integer" ≠ JVal.s "string" := by
  decide

/-- C2 (amended): every path parameter of an endpoint is in the generated
schema's `required` list and has an entry in its `properties`; that entry
is the path property, of type "string", whenever the name is not also a
declared query parameter (if it is, the query declaration decides the
type); and any name in `required` that is not a path parameter has a
parameter declaration whose `required` field is truthy. -/
theorem c2_required_and_types (e : APIEndpoint) :
    (∀ p, p ∈ e.path_params → p ∈ (buildToolSchema e).inputSchema.required) ∧
    (∀ p, p ∈ e.path_params →
      ((getKey (buildToolSchema e).inputSchema.properties p).isSome : Prop)) ∧
    (∀ p, p ∈ e.path_params → p ∉ e.query_params →
      getKey (buildToolSchema e).inputSchema.properties p = some (pathPropVal p)) ∧
    (∀ k, k ∈ (buildToolSchema e).inputSchema.required → k ∉ e.path_params →
      ∃ pc, (k, pc) ∈ e.parameters ∧ declRequired pc) := by
  have hpass2req : (schemaPass2 e).required
      = e.path_params ++
        e.query_params.filter (fun p => declRequired ((getKey e.parameters p).getD [])) := by
    unfold schemaPass2 schemaPass1
    rw [foldl_queryPass_req, foldl_pathPass_req]
    simp
  have hpass2props : ∀ p, p ∈ e.path_params → p ∉ e.query_params →
      getKey (schemaPass2 e).properties p = some (pathPropVal p) := by
    intro p hp hq
    unfold schemaPass2 schemaPass1
    rw [foldl_queryPass_props, getKey_foldl_set, foldl_pathPass_props, getKey_foldl_set]
    simp [hp, hq]
  refine ⟨?_, ?_, ?_, ?_⟩
  · intro p hp
    unfold buildToolSchema
    apply foldl_extraPass_req_mono
    rw [hpass2req]
    exact List.mem_append_left _ hp
  · intro p hp
    by_cases hq : p ∈ e.query_params
    · have h2 : getKey (schemaPass2 e).properties p = some (queryPropVal e p) := by
        unfold schemaPass2
        rw [foldl_queryPass_props, getKey_foldl_set]
        simp [hq]
      have h3 := foldl_extraPass_props_preserved e.parameters (schemaPass2 e) p _ h2
      unfold buildToolSchema
      rw [h3]
      rfl
    · have h3 := foldl_extraPass_props_preserved e.parameters (schemaPass2 e) p _
        (hpass2props p hp hq)
      unfold buildToolSchema
      rw [h3]
      rfl
  · intro p hp hq
    unfold buildToolSchema
    exact foldl_extraPass_props_preserved _ _ _ _ (hpass2props p hp hq)
  · intro k hk hnp
    unfold buildToolSchema at hk
    rcases foldl_extraPass_req_from e.parameters (schemaPass2 e) k hk with h1 | h2
    · rw [hpass2req] at h1
      rcases List.mem_append.mp h1 with ha | hb
      · exact absurd ha hnp
      · have hd := List.of_mem_filter hb
        rcases hcase : getKey e.parameters k with _ | pc
        · rw [hcase] at hd
          simp [declRequired, getKey, truthy] at hd
        · rw [hcase] at hd
          exact ⟨pc, getKey_mem _ _ _ hcase, by simpa using hd⟩
    · exact h2

/-- C2 witness: the amended theorem applied to a concrete endpoint with
one path parameter. -/
theorem c2_required_and_types_witness :
    "id" ∈ (buildToolSchema epPathOnly).inputSchema.required ∧
    getKey (buildToolSchema epPathOnly).inputSchema.properties "id"
      = some (pathPropVal "id") := by
  refine ⟨(c2_required_and_types epPathOnly).1 "id" (by decide), ?_⟩
  exact (c2_required_and_types epPathOnly).2.2.1 "id" (by decide) (by decide)

/-- C6 counterexample: the endpoint's `auth_config` does contain a token
(the empty string), yet the resolver returns no `Authorization` header at
all — Python's `token or os.getenv(...)` / `if token:` treat the empty
token as absent — so the claim that a configured token t always yields
`Authorization: Bearer t` is false. -/
theorem c6_counterexample :
    getKey epBearerEmptyToken.auth_config "token" = some "" ∧
    prepareAuthHeaders epBearerEmptyToken envEmpty = [] := by
  decide

/-- C6 (amended): for a bearer endpoint, a non-empty configured token t
yields exactly the header `Authorization: Bearer t`; with no configured
token (absent or empty), a non-empty environment fallback value is used
the same way; and when neither source provides a non-empty token the
resolver returns a header map with no entries at all, without raising. -/
theorem c6_bearer_resolution (e : APIEndpoint) (env : Env)
    (hb : e.auth_type = some "bearer") :
    (∀ t, getKey e.auth_config "token" = some t → t ≠ "" →
      prepareAuthHeaders e env = [("Authorization", "Bearer " ++ t)]) ∧
    (∀ v, (getKey e.auth_config "token" = none ∨ getKey e.auth_config "token" = some "") →
      env.apiToken = some v → v ≠ "" →
      prepareAuthHeaders e env = [("Authorization", "Bearer " ++ v)]) ∧
    ((getKey e.auth_config "token" = none ∨ getKey e.auth_config "token" = some "") →
      (env.apiToken = none ∨ env.apiToken = some "") →
      prepareAuthHeaders e env = []) := by
  refine ⟨?_, ?_, ?_⟩
  · intro t hc ht
    unfold prepareAuthHeaders
    rw [if_pos hb]
    have : pyOr (getKey e.auth_config "token") env.apiToken = some t := by
      unfold pyOr
      rw [hc]
      simp [truthyOpt, ht]
    rw [this]
    simp [ht]
  · intro v hc he hv
    unfold prepareAuthHeaders
    rw [if_pos hb]
    have : pyOr (getKey e.auth_config "token") env.apiToken = some v := by
      unfold pyOr
      rcases hc with hc | hc <;> rw [hc] <;> simp [truthyOpt, he]
    rw [this]
    simp [hv]
  · intro hc he
    unfold prepareAuthHeaders
    rw [if_pos hb]
    have : pyOr (getKey e.auth_config "token") env.apiToken = env.apiToken := by
      unfold pyOr
      rcases hc with hc | hc <;> rw [hc] <;> simp [truthyOpt]
    rw [this]
    rcases he with he | he <;> simp [he]

/-- C6 witness: the amended theorem applied to a bearer endpoint with the
configured token "abc", and to one with an empty token and no fallback. -/
theorem c6_bearer_resolution_witness :
    prepareAuthHeaders epBearerAbc envEmpty = [("Authorization", "Bearer abc")] ∧
    prepareAuthHeaders epBearerEmptyToken envEmpty = [] := by
  refine ⟨(c6_bearer_resolution epBearerAbc envEmpty (by decide)).1 "abc"
    (by decide) (by decide), ?_⟩
  exact (c6_bearer_resolution epBearerEmptyToken envEmpty (by decide)).2.2
    (Or.inr (by decide)) (Or.inl (by decide))

/-- C10: an endpoint whose `auth_type` is set but is none of the exact
strings "bearer", "basic" and "api_key" falls through every branch of
`_prepare_auth_headers` and gets an empty header map, silently. -/
theorem c10_unrecognized_auth (e : APIEndpoint) (env : Env) (s : String)
    (hs : e.auth_type = some s)
    (h1 : s ≠ "bearer") (h2 : s ≠ "basic") (h3 : s ≠ "api_key") :
    prepareAuthHeaders e env = [] := by
  unfold prepareAuthHeaders
  rw [if_neg, if_neg, if_neg]
  · rw [hs]; simp [h3]
  · rw [hs]; simp [h2]
  · rw [hs]; simp [h1]

/-- C10 witness: the case-variant auth type "Bearer" yields no headers
even though a token is configured. -/
theorem c10_unrecognized_auth_witness :
    prepareAuthHeaders epAuthCapitalBearer envEmpty = [] :=
  c10_unrecognized_auth epAuthCapitalBearer envEmpty "Bearer"
    (by decide) (by decide) (by decide) (by decide)

theorem strDataAppend (a b : String) : (a ++ b).data = a.data ++ b.data := by
  cases a
  cases b
  rfl

theorem strContains_mk (h n : String) (p q : String)
    (he : h.data = p.data ++ n.data ++ q.data) : strContains h n :=
  ⟨p.data, q.data, he.symm⟩

theorem findEndpoint_eq_none (l : List APIEndpoint) (n : String)
    (h : ∀ ep ∈ l, ep.name ≠ n) : findEndpoint l n = none := by
  induction l with
  | nil => rfl
  | cons e rest ih =>
    unfold findEndpoint
    rw [if_neg (h e (List.mem_cons_self _ _))]
    exact ih (fun ep hep => h ep (List.mem_cons_of_mem _ hep))

/-- C5: invoking a name that matches no configured endpoint yields exactly
one text block, whose text carries a not-found indication and the literal
invoked name; the handler returns this normally (it is the non-exception
branch of the dispatcher, not the catch-all). -/
theorem c5_tool_not_found (cfg : ServerConfig) (env : Env)
    (exec : ResolvedRequest → Except String HttpResp) (name : String)
    (args : List (String × PyValue))
    (h : ∀ ep ∈ cfg.endpoints, ep.name ≠ name) :
    handleCallTool cfg env exec name args
      = [⟨"Tool \x27" ++ name ++ "\x27 not found"⟩] ∧
    strContains ("Tool \x27" ++ name ++ "\x27 not found") name ∧
    strContains ("Tool \x27" ++ name ++ "\x27 not found") "not found" := by
  refine ⟨?_, ?_, ?_⟩
  · simp only [handleCallTool, findEndpoint_eq_none _ _ h]
  · apply strContains_mk _ _ "Tool \x27" "\x27 not found"
    simp [strDataAppend]
  · apply strContains_mk _ _ ("Tool \x27" ++ name ++ "\x27 ") ""
    simp [strDataAppend]

/-- C5 witness: invoking "nope" on a configuration whose only endpoint is
named "get_item". -/
theorem c5_tool_not_found_witness :
    handleCallTool cfgGetItem envEmpty (fun _ => .error "down") "nope" []
      = [⟨"Tool \x27nope\x27 not found"⟩] ∧
    strContains "Tool \x27nope\x27 not found" "nope" := by
  have h := c5_tool_not_found cfgGetItem envEmpty (fun _ => .error "down") "nope" []
    (by decide)
  exact ⟨h.1, h.2.1⟩

/-- C3: the dispatcher is a total function (it always returns a result
list), and any fault raised while preparing the request or executing the
HTTP call is converted into the catch-all failure text, which contains
both the invoked tool name and the fault description. -/
theorem c3_faults_converted (cfg : ServerConfig) (env : Env)
    (exec : ResolvedRequest → Except String HttpResp) (name : String)
    (args : List (String × PyValue)) (e : APIEndpoint) (m : String)
    (hf : findEndpoint cfg.endpoints name = some e) :
    (mkRequest cfg env e args = .error m →
      handleCallTool cfg env exec name args = [⟨errText name m⟩]) ∧
    (∀ req, mkRequest cfg env e args = .ok req → exec req = .error m →
      handleCallTool cfg env exec name args = [⟨errText name m⟩]) ∧
    strContains (errText name m) name ∧
    strContains (errText name m) m := by
  refine ⟨?_, ?_, ?_, ?_⟩
  · intro hm
    simp only [handleCallTool, hf, hm]
  · intro req hok hex
    simp only [handleCallTool, hf, hok, respond, hex]
  · apply strContains_mk _ _ "Error: Failed to call tool \x27" ("\x27: " ++ m)
    simp [errText, strDataAppend]
  · apply strContains_mk _ _ ("Error: Failed to call tool \x27" ++ name ++ "\x27: ") ""
    simp [errText, strDataAppend]

/-- C3 witness: a transport fault ("connection refused") on a concrete
call is converted into the catch-all failure text. -/
theorem c3_faults_converted_witness :
    handleCallTool cfgGetItem envEmpty (fun _ => .error "connection refused") "get_item" []
      = [⟨"Error: Failed to call tool \x27get_item\x27: connection refused"⟩] ∧
    strContains (errText "get_item" "connection refused") "get_item" ∧
    strContains (errText "get_item" "connection refused") "connection refused" := by
  have h := c3_faults_converted cfgGetItem envEmpty (fun _ => .error "connection refused")
    "get_item" [] epGetItem "connection refused" (by decide)
  exact ⟨(h.2.1 ⟨"GET", "http://h/item", [], [], none⟩ rfl rfl).trans (by decide),
    h.2.2.1, h.2.2.2⟩

/-- C4: a completed HTTP response is classified by status code — status
>= 400 yields a text result prefixed "Error: HTTP" containing the numeric
status and the (possibly pretty-printed) body, status < 400 a text result
containing the status and the body — and in particular a 404 response
with body \x7b"error":"missing"\x7d yields a text result containing both
"404" and "missing"; in all cases the call returns a result normally. -/
theorem c4_status_classification :
    (∀ (cfg : ServerConfig) (env : Env) (exec : ResolvedRequest → Except String HttpResp)
       (name : String) (args : List (String × PyValue)) (e : APIEndpoint)
       (req : ResolvedRequest) (resp : HttpResp),
      findEndpoint cfg.endpoints name = some e →
      mkRequest cfg env e args = .ok req →
      exec req = .ok resp →
      (400 ≤ resp.status →
        handleCallTool cfg env exec name args
          = [⟨"Error: HTTP " ++ toString resp.status ++ ": " ++ formatResponse resp.body⟩] ∧
        strContains ("Error: HTTP " ++ toString resp.status ++ ": " ++ formatResponse resp.body)
          (toString resp.status) ∧
        strContains ("Error: HTTP " ++ toString resp.status ++ ": " ++ formatResponse resp.body)
          (formatResponse resp.body)) ∧
      (resp.status < 400 →
        handleCallTool cfg env exec name args
          = [⟨"API Response (Status: " ++ toString resp.status ++ "):\n\n" ++
              formatResponse resp.body⟩] ∧
        strContains ("API Response (Status: " ++ toString resp.status ++ "):\n\n" ++
            formatResponse resp.body) (toString resp.status) ∧
        strContains ("API Response (Status: " ++ toString resp.status ++ "):\n\n" ++
            formatResponse resp.body) (formatResponse resp.body))) ∧
    (handleCallTool cfgGetItem envEmpty
        (fun _ => .ok ⟨404, "\x7b\"error\":\"missing\"\x7d"⟩) "get_item" []
      = [⟨"Error: HTTP 404: \x7b\n  \"error\": \"missing\"\n\x7d"⟩] ∧
     strContains "Error: HTTP 404: \x7b\n  \"error\": \"missing\"\n\x7d" "404" ∧
     strContains "Error: HTTP 404: \x7b\n  \"error\": \"missing\"\n\x7d" "missing") := by
  constructor
  · intro cfg env exec name args e req resp hf hok hex
    constructor
    · intro h4
      refine ⟨?_, ?_, ?_⟩
      · simp only [handleCallTool, hf, hok, respond, hex]
        rw [if_pos h4]
      · apply strContains_mk _ _ "Error: HTTP " (": " ++ formatResponse resp.body)
        simp [strDataAppend]
      · apply strContains_mk _ _ ("Error: HTTP " ++ toString resp.status ++ ": ") ""
        simp [strDataAppend]
    · intro h4
      refine ⟨?_, ?_, ?_⟩
      · simp only [handleCallTool, hf, hok, respond, hex]
        rw [if_neg (Nat.not_le.mpr h4)]
      · apply strContains_mk _ _ "API Response (Status: "
          ("):\n\n" ++ formatResponse resp.body)
        simp [strDataAppend]
      · apply strContains_mk _ _
          ("API Response (Status: " ++ toString resp.status ++ "):\n\n") ""
        simp [strDataAppend]
  · refine ⟨?_, by decide, by decide⟩
    decide

/-- C4 witness: the classification theorem applied to a concrete 500
response and a concrete 200 response. -/
theorem c4_status_classification_witness :
    handleCallTool cfgGetItem envEmpty (fun _ => .ok ⟨500, "oops"⟩) "get_item" []
      = [⟨"Error: HTTP 500: oops"⟩] ∧
    handleCallTool cfgGetItem envEmpty (fun _ => .ok ⟨200, "fine"⟩) "get_item" []
      = [⟨"API Response (Status: 200):\n\nfine"⟩] := by
  constructor
  · have h := (c4_status_classification.1 cfgGetItem envEmpty (fun _ => .ok ⟨500, "oops"⟩)
      "get_item" [] epGetItem ⟨"GET", "http://h/item", [], [], none⟩ ⟨500, "oops"⟩
      (by decide) rfl rfl).1 (by decide)
    exact h.1.trans (by decide)
  · have h := (c4_status_classification.1 cfgGetItem envEmpty (fun _ => .ok ⟨200, "fine"⟩)
      "get_item" [] epGetItem ⟨"GET", "http://h/item", [], [], none⟩ ⟨200, "fine"⟩
      (by decide) rfl rfl).2 (by decide)
    exact h.1.trans (by decide)

/-- C9: when body-template substitution fails, `_build_request_body`
degrades to no body, and the invocation still issues the HTTP request
(with an empty body) — the result is whatever the response classification
produces, with no error content about the substitution failure. -/
theorem c9_template_failure_degrades (cfg : ServerConfig) (env : Env)
    (exec : ResolvedRequest → Except String HttpResp) (name : String)
    (args : List (String × PyValue)) (e : APIEndpoint) (t m u : String)
    (qp : List (String × String))
    (hf : findEndpoint cfg.endpoints name = some e)
    (ht : e.body_template = some t)
    (hs : substTemplateE t args = .error m)
    (hu : buildUrlE cfg e args = .ok u)
    (hq : buildQueryParamsE e args = .ok qp) :
    buildRequestBodyE e args = none ∧
    handleCallTool cfg env exec name args
      = respond name (exec ⟨e.method, u,
          mergeH (mergeH cfg.global_headers e.headers) (prepareAuthHeaders e env),
          qp, none⟩) := by
  have hbody : buildRequestBodyE e args = none := by
    simp only [buildRequestBodyE, ht]
    by_cases hte : t = ""
    · simp [hte]
    · simp [hte, hs]
  refine ⟨hbody, ?_⟩
  have hreq : mkRequest cfg env e args
      = .ok ⟨e.method, u,
          mergeH (mergeH cfg.global_headers e.headers) (prepareAuthHeaders e env),
          qp, none⟩ := by
    simp only [mkRequest, hu, hq, hbody]
  simp only [handleCallTool, hf, hreq]

/-- C9 witness: an argument whose `str()` raises makes the substitution
fail; the body degrades to none and the call still reaches the (mocked)
HTTP layer and returns its classified 200 response. -/
theorem c9_template_failure_degrades_witness :
    buildRequestBodyE epBodyA [("a", PyValue.bad "boom")] = none ∧
    handleCallTool cfgBodyA envEmpty (fun _ => .ok ⟨200, "done"⟩) "t"
        [("a", PyValue.bad "boom")]
      = [⟨"API Response (Status: 200):\n\ndone"⟩] := by
  have h := c9_template_failure_degrades cfgBodyA envEmpty (fun _ => .ok ⟨200, "done"⟩)
    "t" [("a", PyValue.bad "boom")] epBodyA "\x7ba\x7d" "boom" "http://h/x" []
    (by decide) rfl rfl rfl rfl
  exact ⟨h.1, h.2.trans (by decide)⟩

theorem substTemplateE_lift (args : List (String × String)) :
    ∀ t, substTemplateE t (liftArgs args) = .ok (substTemplate t args) := by
  induction args with
  | nil => intro t; rfl
  | cons kv rest ih =>
    intro t
    show substTemplateE (pyReplace t ("\x7b" ++ kv.1 ++ "\x7d") kv.2) (liftArgs rest) = _
    exact ih _

/-- C7: when the body template is set (non-empty, as Python truthiness
reads "set"), the resolved body is the template with `\x7bkey\x7d`
replaced by the string form of the value for every key of the arguments
in order — regardless of the endpoint's declared parameters, path or
query lists — and the spec's example resolves exactly as claimed. -/
theorem c7_body_substitution :
    (∀ (nm ds mth u : String) (hs : List (String × String))
       (pms : List (String × List (String × JVal))) (pps qps : List String)
       (aty : Option String) (ac : List (String × String)) (t : String)
       (args : List (String × String)), t ≠ "" →
      buildRequestBodyE ⟨nm, ds, mth, u, hs, pms, pps, qps, some t, aty, ac⟩ (liftArgs args)
        = some (substTemplate t args)) ∧
    buildRequestBodyE epBodyName [("value", PyValue.str "x")]
      = some "\x7b\"name\":\"x\"\x7d" := by
  refine ⟨?_, by decide⟩
  intro nm ds mth u hs pms pps qps aty ac t args hne
  simp only [buildRequestBodyE, if_neg hne, substTemplateE_lift]

/-- C7 witness: the general substitution theorem applied at a concrete
endpoint and arguments. -/
theorem c7_body_substitution_witness :
    buildRequestBodyE ⟨"t", "d", "POST", "http://h/x", [], [], [], [], some "\x7ba\x7d",
        none, []⟩ (liftArgs [("a", "x")]) = some "x" :=
  (c7_body_substitution.1 "t" "d" "POST" "http://h/x" [] [] [] [] none [] "\x7ba\x7d"
    [("a", "x")] (by decide)).trans (by decide)

theorem getKey_liftArgs (args : List (String × String)) (p : String) :
    getKey (liftArgs args) p = (getKey args p).map PyValue.str := by
  induction args with
  | nil => rfl
  | cons kv rest ih =>
    by_cases h : kv.1 = p
    · simp [liftArgs, getKey, h]
    · simp only [liftArgs, List.map_cons] at *
      show (if kv.1 = p then some (PyValue.str kv.2) else getKey (List.map _ rest) p) = _
      simp [getKey, h, ih]

theorem substPathParamsE_lift (l : List String) (args : List (String × String)) :
    ∀ u, substPathParamsE l (liftArgs args) u = .ok (substPathParams l args u) := by
  induction l with
  | nil => intro u; rfl
  | cons p rest ih =>
    intro u
    simp only [substPathParamsE, substPathParams, getKey_liftArgs]
    cases hk : getKey args p with
    | none => simp [ih]
    | some v => simp [strOfV, ih]

theorem substPathParamsE_absent (l : List String) (args : List (String × PyValue)) :
    ∀ u, (∀ p ∈ l, getKey args p = none) → substPathParamsE l args u = .ok u := by
  induction l with
  | nil => intro u _; rfl
  | cons p rest ih =>
    intro u h
    have hp := h p (List.mem_cons_self _ _)
    simp only [substPathParamsE, hp]
    exact ih u (fun q hq => h q (List.mem_cons_of_mem _ hq))

/-- C8: URL resolution starts from the base-resolved endpoint URL and,
for every name in `path_params` in order, replaces `\x7bname\x7d` by the
string form of the argument when the name is present in the arguments;
when every path parameter is absent from the arguments the URL is
returned unchanged — the placeholder text stays in it — and no error is
raised (the result is an `ok`, not an exception). -/
theorem c8_url_resolution :
    (∀ (cfg : ServerConfig) (e : APIEndpoint) (args : List (String × String)),
      buildUrlE cfg e (liftArgs args)
        = .ok (substPathParams e.path_params args (resolveBase cfg e.url))) ∧
    (∀ (cfg : ServerConfig) (e : APIEndpoint) (args : List (String × PyValue)),
      (∀ p ∈ e.path_params, getKey args p = none) →
      buildUrlE cfg e args = .ok (resolveBase cfg e.url)) := by
  constructor
  · intro cfg e args
    unfold buildUrlE
    exact substPathParamsE_lift _ _ _
  · intro cfg e args h
    unfold buildUrlE
    exact substPathParamsE_absent _ _ _ h

/-- C8 witness: a present path parameter is substituted; an absent one
leaves the literal placeholder in the URL with no error. -/
theorem c8_url_resolution_witness :
    buildUrlE cfgRelPath epRelPath (liftArgs [("id", "7")]) = .ok "/a/7" ∧
    buildUrlE cfgRelPath epRelPath [] = .ok "/a/\x7bid\x7d" := by
  constructor
  · exact (c8_url_resolution.1 cfgRelPath epRelPath [("id", "7")]).trans (by rfl)
  · exact (c8_url_resolution.2 cfgRelPath epRelPath [] (fun p _ => rfl)).trans (by rfl)
